import Mathlib

/-!
# Verification of the vsa traffic snapshot tooling

A shallow embedding of the two scripts of this repository,
scripts/traffic_report.py and scripts/summarize_traffic.py, together with
theorems settling the specification claims about them.

Conventions of the embedding:

* A JSON dictionary is modelled as a structure with Option fields; the
  Python pattern d.get(key, dflt) becomes field.getD dflt, and
  d.get(key) becomes the Option field itself.
* Python float division of nonnegative integers is idealised as division
  in the rationals; the literal threshold 0.20 in the spike predicate is
  the rational 1 / 5.  Division by zero never arises because every
  division in the scripts is guarded, exactly as in the source.
* Python dicts preserve insertion order; the daily-series defaultdict of
  traffic_report.compute is modelled as an association list with an
  upsert that updates the first matching key in place and appends a new
  key at the end.
* list.sort(key=...) and sorted(...) are stable; they are modelled by
  List.insertionSort with a non-strict comparison, which is stable.
* String comparison in Python is lexicographic by code point, matching
  the linear order on String.
* The repo / repository field of a snapshot is omitted from the model:
  it is only echoed into the rendered report title and no claim
  concerns it.
-/

namespace Vsa

/-- One element of a per-day series (views.views or clones.clones):
a JSON object with fields timestamp, count, uniques, all optional. -/
structure DayEntry where
  timestamp : Option String
  count : Option Nat
  uniques : Option Nat
  deriving DecidableEq

/-- A views or clones section: fields count, uniques and the per-day
list (JSON key "views" resp. "clones", called daily here). -/
structure SeriesSection where
  count : Option Nat
  uniques : Option Nat
  daily : Option (List DayEntry)
  deriving DecidableEq

/-- A referrer record from the referrers list. -/
structure Referrer where
  referrer : Option String
  count : Option Nat
  uniques : Option Nat
  deriving DecidableEq

/-- A popular-path record from the paths list. -/
structure PathRec where
  path : Option String
  count : Option Nat
  uniques : Option Nat
  title : Option String
  deriving DecidableEq

/-- A parsed snapshot document. -/
structure Snapshot where
  views : Option SeriesSection
  clones : Option SeriesSection
  referrers : Option (List Referrer)
  paths : Option (List PathRec)
  collected_at : Option String
  deriving DecidableEq

/-- The value type of the daily-series dict built by
traffic_report.compute (line 66): views, v_uniques, clones, c_uniques. -/
structure DayStats where
  views : Nat
  v_uniques : Nat
  clones : Nat
  c_uniques : Nat
  deriving DecidableEq

/-- The defaultdict default: all four counters zero. -/
def DayStats.zero : DayStats := ⟨0, 0, 0, 0⟩

/-- traffic_report.to_date (line 48): extract the date from a timestamp
like 2025-10-25T00:00:00Z by splitting at "T" and taking the first
piece.  Since the separator is the single character T, the first piece
of the split is exactly the longest T-free initial segment. -/
def to_date (ts : String) : String := ⟨ts.data.takeWhile (fun c => c ≠ 'T')⟩

/-- Lexicographic comparison of character lists by code point: the
order Python uses on str.  Spelled out structurally so that it is
kernel-executable. -/
def lexLe : List Char → List Char → Bool
  | [], _ => true
  | _ :: _, [] => false
  | a :: as, b :: bs =>
    if a < b then true
    else if b < a then false
    else lexLe as bs

/-- Python string comparison a <= b. -/
abbrev strLe (a b : String) : Prop := lexLe a.data b.data = true

/-- The daily-series dict: an insertion-ordered association list from
date strings to DayStats. -/
abbrev Series := List (String × DayStats)

/-- Reading series[day]: the defaultdict returns the stored value for
the first (unique) matching key, or the all-zero default. -/
def lookupD (s : Series) (k : String) : DayStats :=
  match s.find? (fun p => decide (p.fst = k)) with
  | some p => p.snd
  | none => DayStats.zero

/-- Mutating series[day]: update the first entry with the given key in
place, or append a fresh entry (defaultdict semantics with insertion
order). -/
def upsert (s : Series) (k : String) (f : DayStats → DayStats) : Series :=
  match s with
  | [] => [(k, f DayStats.zero)]
  | p :: rest => if p.fst = k then (p.fst, f p.snd) :: rest else p :: upsert rest k f

/-- The date key of a per-day entry: to_date(p.get("timestamp", "")). -/
def entryDate (p : DayEntry) : String := to_date (p.timestamp.getD "")

/-- Body of the views loop (lines 67-70): assign the entry's count and
uniques into the views and v_uniques slots, keeping the other slots. -/
def viewUpdate (p : DayEntry) (st : DayStats) : DayStats :=
  { st with views := p.count.getD 0, v_uniques := p.uniques.getD 0 }

/-- Body of the clones loop (lines 71-74): assign into the clones and
c_uniques slots, keeping the other slots. -/
def cloneUpdate (p : DayEntry) (st : DayStats) : DayStats :=
  { st with clones := p.count.getD 0, c_uniques := p.uniques.getD 0 }

/-- One iteration of either loop: series[to_date(p.timestamp)] updated
by the given field assignment. -/
def addEntry (F : DayEntry → DayStats → DayStats) (s : Series) (p : DayEntry) : Series :=
  upsert s (entryDate p) (F p)

/-- The two loops of compute (lines 66-74): first every entry of
views.views, then every entry of clones.clones, into an initially empty
dict. -/
def buildSeries (vl cl : List DayEntry) : Series :=
  cl.foldl (addEntry cloneUpdate) (vl.foldl (addEntry viewUpdate) [])

/-- The keys of the series dict, in insertion order. -/
def seriesKeys (s : Series) : List String := s.map Prod.fst

/-- One element of the spikes list (lines 100-107).  flags is the
", "-joined list of fired predicate tags. -/
structure SpikeFlag where
  date : String
  flags : String
  views : Nat
  uniques : Nat
  clones : Nat
  unique_cloners : Nat
  deriving DecidableEq

/-- The spike predicate tags fired for one day's stats (lines 92-98).
Each guard is the Python truthiness test on the day's denominator;
0.20 is idealised as the rational 1 / 5. -/
def spikeFlagsOf (st : DayStats) : List String :=
  (if st.v_uniques ≠ 0 ∧ (5 : ℚ) < (st.views : ℚ) / (st.v_uniques : ℚ) then
    ["views/visitor>5"] else []) ++
  (if st.c_uniques ≠ 0 ∧ (3 : ℚ) < (st.clones : ℚ) / (st.c_uniques : ℚ) then
    ["clones/unique_cloner>3"] else []) ++
  (if st.views ≠ 0 ∧ (1 / 5 : ℚ) < (st.clones : ℚ) / (st.views : ℚ) then
    ["clones/views>20%"] else [])

/-- The dictionary returned by traffic_report.compute (lines 109-126). -/
structure DerivedStats where
  v_total : Nat
  v_unique : Nat
  c_total : Nat
  c_unique : Nat
  views_per_visitor : ℚ
  clone_to_view : ℚ
  unique_cloner_to_visitor : ℚ
  daily_avg_views : ℚ
  daily_avg_clones : ℚ
  days : List String
  series : Series
  spikes : List SpikeFlag
  referrers : List Referrer
  paths : List PathRec
  collected_at : Option String
  deriving DecidableEq

/-- d.get("views", some-section-default): the empty dict, on which every
field access falls back to its default. -/
def SeriesSection.empty : SeriesSection := ⟨none, none, none⟩

/-- traffic_report.compute (lines 53-126): totals, daily series, KPIs,
daily averages and spike detection.  Each let mirrors one line of the
source; the guards (if x ≠ 0 / if days ≠ []) are the Python truthiness
guards on the divisors. -/
def compute (d : Snapshot) : DerivedStats :=
  let views := d.views.getD SeriesSection.empty
  let clones := d.clones.getD SeriesSection.empty
  let referrers := d.referrers.getD []
  let paths := d.paths.getD []
  let v_total := views.count.getD 0
  let v_unique := views.uniques.getD 0
  let c_total := clones.count.getD 0
  let c_unique := clones.uniques.getD 0
  let series := buildSeries (views.daily.getD []) (clones.daily.getD [])
  let days := List.insertionSort (fun a b : String => strLe a b) (seriesKeys series)
  let views_per_visitor : ℚ := if v_unique ≠ 0 then (v_total : ℚ) / (v_unique : ℚ) else 0
  let clone_to_view : ℚ := if v_total ≠ 0 then (c_total : ℚ) / (v_total : ℚ) else 0
  let unique_cloner_to_visitor : ℚ := if v_unique ≠ 0 then (c_unique : ℚ) / (v_unique : ℚ) else 0
  let daily_avg_views : ℚ :=
    if days ≠ [] then
      ((days.map (fun k => ((lookupD series k).views : ℚ))).sum) / (days.length : ℚ)
    else 0
  let daily_avg_clones : ℚ :=
    if days ≠ [] then
      ((days.map (fun k => ((lookupD series k).clones : ℚ))).sum) / (days.length : ℚ)
    else 0
  let spikes := days.filterMap (fun k =>
    let st := lookupD series k
    let fl := spikeFlagsOf st
    if fl ≠ [] then
      some ⟨k, String.intercalate ", " fl, st.views, st.v_uniques, st.clones, st.c_uniques⟩
    else none)
  ⟨v_total, v_unique, c_total, c_unique, views_per_visitor, clone_to_view,
    unique_cloner_to_visitor, daily_avg_views, daily_avg_clones, days, series,
    spikes, referrers, paths, d.collected_at⟩

/-! ## summarize_traffic.py -/

/-- The facts printed for one series by summarize_traffic.summarize_metrics
(lines 64-98): the totals, the number of per-day entries, and the daily
averages.  daily_avg is none when the per-day list is empty: the
average lines are simply not printed then (no value, no error). -/
structure SeriesSummary where
  total : Nat
  uniques : Nat
  num_days : Nat
  daily_avg : Option ℚ
  daily_avg_uniques : Option ℚ
  deriving DecidableEq

/-- Python truthiness of a section dict (the test if views: on
line 66): the dict is truthy when at least one of its modelled keys is
present. -/
def sectionTruthy (v : SeriesSection) : Bool :=
  v.count.isSome || v.uniques.isSome || v.daily.isSome

/-- The per-series computation of summarize_metrics: totals default to
0, num_days is the LENGTH of the per-day list, and each average divides
the section's own total by num_days, only when num_days > 0. -/
def summarizeSeries (sec : SeriesSection) : SeriesSummary :=
  let total := sec.count.getD 0
  let uniques := sec.uniques.getD 0
  let num_days := (sec.daily.getD []).length
  ⟨total, uniques, num_days,
    if num_days > 0 then some ((total : ℚ) / (num_days : ℚ)) else none,
    if num_days > 0 then some ((uniques : ℚ) / (num_days : ℚ)) else none⟩

/-- The VIEWS block of summarize_metrics (lines 65-81): none models the
"No data available" branch taken when the views key is absent or its
dict falsy. -/
def summarize_views (d : Snapshot) : Option SeriesSummary :=
  match d.views with
  | none => none
  | some v => if sectionTruthy v then some (summarizeSeries v) else none

/-- The CLONES block of summarize_metrics (lines 84-98). -/
def summarize_clones (d : Snapshot) : Option SeriesSummary :=
  match d.clones with
  | none => none
  | some c => if sectionTruthy c then some (summarizeSeries c) else none

/-! ## Snapshot loaders -/

/-- A candidate snapshot file: its filename and the result of parsing
its contents (none models unreadable or malformed JSON). -/
structure SnapFile where
  name : String
  parsed : Option Snapshot
  deriving DecidableEq

/-- Which standard stream a fatal message is written to. -/
inductive OutStream
  | stdout
  | stderr
  deriving DecidableEq

/-- A fatal tool exit: the stream carrying the message, the message and
the process exit code. -/
structure ToolExit where
  stream : OutStream
  message : String
  code : Nat
  deriving DecidableEq

/-- The sort key of traffic_report.latest_snapshot (lines 28-34):
the parsed file's collected_at, or the empty string when the file is
unreadable, malformed, or lacks the field. -/
def keyOf (f : SnapFile) : String :=
  match f.parsed with
  | none => ""
  | some d => d.collected_at.getD ""

/-- raise SystemExit("No snapshots found in metrics/traffic/")
(line 25): Python prints the message to stderr and exits with code 1. -/
def noSnapshotsExit : ToolExit :=
  ⟨OutStream.stderr, "No snapshots found in metrics/traffic/", 1⟩

/-- An uncaught json.JSONDecodeError: traceback on stderr, exit code 1.
Its message reports only line/column of the malformed text, never the
file path, so the modelled message is a constant independent of the
file name. -/
def jsonDecodeExit : ToolExit :=
  ⟨OutStream.stderr, "json.decoder.JSONDecodeError", 1⟩

/-- traffic_report.latest_snapshot (lines 21-37): glob the directory
(sorted by name), fail when empty, then stable-sort by the embedded
collected_at key and take the last file.  The input list is the glob
result in arbitrary filesystem order. -/
def latest_snapshot (files : List SnapFile) : Except ToolExit SnapFile :=
  if files = [] then Except.error noSnapshotsExit
  else
    let byName := List.insertionSort (fun a b : SnapFile => strLe a.name b.name) files
    let byKey := List.insertionSort (fun a b : SnapFile => strLe (keyOf a) (keyOf b)) byName
    Except.ok (byKey.getLastD ⟨"", none⟩)

/-- traffic_report.load_data (lines 40-45): re-open and parse the
selected file; an unparsable selected file raises an uncaught
JSONDecodeError. -/
def load_data (files : List SnapFile) : Except ToolExit (SnapFile × Snapshot) :=
  match latest_snapshot files with
  | Except.error e => Except.error e
  | Except.ok f =>
    match f.parsed with
    | none => Except.error jsonDecodeExit
    | some d => Except.ok (f, d)

/-- The whole traffic_report run up to the derived statistics: any error
aborts before anything is produced. -/
def trafficReportRun (files : List SnapFile) : Except ToolExit DerivedStats :=
  match load_data files with
  | Except.error e => Except.error e
  | Except.ok fd => Except.ok (compute fd.snd)

/-- print(...) on lines 31 and 38 of summarize_traffic writes to
STDOUT (print's default stream), then sys.exit(1). -/
def dirNotFoundExit : ToolExit :=
  ⟨OutStream.stdout, "Error: Traffic metrics directory not found", 1⟩

/-- Same for the no-files branch of find_latest_snapshot. -/
def noFilesExit : ToolExit :=
  ⟨OutStream.stdout, "Error: No traffic snapshot files found", 1⟩

/-- summarize_traffic.find_latest_snapshot (lines 26-43): none models
an absent traffic directory; otherwise sort the globbed files by
filename and take the last. -/
def find_latest_snapshot (dir : Option (List SnapFile)) : Except ToolExit SnapFile :=
  match dir with
  | none => Except.error dirNotFoundExit
  | some files =>
    if files = [] then Except.error noFilesExit
    else
      Except.ok ((List.insertionSort (fun a b : SnapFile => strLe a.name b.name) files).getLastD
        ⟨"", none⟩)

/-- The whole summarize_traffic run: select by filename, parse the
selected file (an unparsable one raises an uncaught JSONDecodeError),
then summarize both series. -/
def summarizeRun (dir : Option (List SnapFile)) :
    Except ToolExit (Option SeriesSummary × Option SeriesSummary) :=
  match find_latest_snapshot dir with
  | Except.error e => Except.error e
  | Except.ok f =>
    match f.parsed with
    | none => Except.error jsonDecodeExit
    | some d => Except.ok (summarize_views d, summarize_clones d)

/-! ## Command lines -/

/-- What a tool's entry point decides to do from its argument vector. -/
inductive CliAction
  | helpExit (code : Nat)
  | run (dirArg : Option String)
  deriving DecidableEq

/-- summarize_traffic.main (lines 131-150), given sys.argv with the
program name stripped: a first argument of -h, --help or help prints
the module doc and exits 0; otherwise a first argument overrides the
metrics directory; extra arguments are ignored. -/
def summarize_main (args : List String) : CliAction :=
  match args with
  | [] => CliAction.run none
  | a :: _ =>
    if a = "-h" ∨ a = "--help" ∨ a = "help" then CliAction.helpExit 0
    else CliAction.run (some a)

/-- traffic_report.main (lines 183-191) never inspects sys.argv: it
always runs the report against the fixed directory, whatever the
arguments. -/
def traffic_report_main (_args : List String) : CliAction :=
  CliAction.run none

/-! ## Concrete inputs used by witnesses and counterexamples -/

/-- The views section of the spec's worked example: count 100,
uniques 20. -/
def secC1v : SeriesSection := ⟨some 100, some 20, none⟩

/-- The clones section of the spec's worked example: count 25,
uniques 4. -/
def secC1c : SeriesSection := ⟨some 25, some 4, none⟩

/-- A snapshot with the spec's worked-example totals. -/
def snapC1 : Snapshot := ⟨some secC1v, some secC1c, none, none, none⟩

/-- A snapshot with one day of 50 views by 5 visitors: the day's
views-per-visitor is 10 > 5. -/
def snapC2 : Snapshot :=
  ⟨some ⟨some 50, some 5, some [⟨some "2025-10-01T00:00:00Z", some 50, some 5⟩]⟩,
   some ⟨some 0, some 0, some []⟩, none, none, none⟩

/-- A snapshot whose views series covers 2025-10-01 only and whose
clones series covers 2025-10-02 only. -/
def snapC3 : Snapshot :=
  ⟨some ⟨some 10, some 2, some [⟨some "2025-10-01T00:00:00Z", some 10, some 2⟩]⟩,
   some ⟨some 7, some 3, some [⟨some "2025-10-02T00:00:00Z", some 7, some 3⟩]⟩,
   none, none, none⟩

/-- A views section with total 10 but only one per-day entry. -/
def secC4v : SeriesSection :=
  ⟨some 10, some 2, some [⟨some "2025-10-01T00:00:00Z", some 10, some 2⟩]⟩

/-- A snapshot with one views day and two clones days, so the distinct
tracked days (2) differ from the views list length (1). -/
def snapC4 : Snapshot :=
  ⟨some secC4v,
   some ⟨some 0, some 0, some [⟨some "2025-10-01T00:00:00Z", some 0, some 0⟩,
     ⟨some "2025-10-02T00:00:00Z", some 0, some 0⟩]⟩,
   none, none, none⟩

/-- A well-formed snapshot with only a collection timestamp. -/
def snapC7 : Snapshot := ⟨none, none, none, none, some "2025-10-25T00:00:00Z"⟩

/-- A candidate file whose contents are malformed JSON. -/
def mal24 : SnapFile := ⟨"2025-10-24.json", none⟩

/-- A lexically later candidate file that parses fine. -/
def good25 : SnapFile := ⟨"2025-10-25.json", some snapC7⟩

/-- The two-file directory of the spec's loader example. -/
def filesC5 : List SnapFile := [⟨"2025-10-24.json", none⟩, ⟨"2025-10-25.json", none⟩]

/-- A views series with two entries on the same calendar date. -/
def snapC10 : Snapshot :=
  ⟨some ⟨some 10, some 3, some [⟨some "2025-10-01T00:00:00Z", some 4, some 1⟩,
     ⟨some "2025-10-01T08:00:00Z", some 6, some 2⟩]⟩,
   none, none, none, none⟩

/-! ## Helper lemmas about the embedding -/

instance {ε α : Type} [DecidableEq ε] [DecidableEq α] : DecidableEq (Except ε α) := fun x y =>
  match x, y with
  | Except.error a, Except.error b =>
    if h : a = b then Decidable.isTrue (by rw [h]) else
      Decidable.isFalse (fun hc => h (by injection hc))
  | Except.ok a, Except.ok b =>
    if h : a = b then Decidable.isTrue (by rw [h]) else
      Decidable.isFalse (fun hc => h (by injection hc))
  | Except.error _, Except.ok _ => Decidable.isFalse (fun hc => Except.noConfusion hc)
  | Except.ok _, Except.error _ => Decidable.isFalse (fun hc => Except.noConfusion hc)

theorem lexLe_refl : ∀ as : List Char, lexLe as as = true
  | [] => rfl
  | a :: as => by simp [lexLe, lt_irrefl a, lexLe_refl as]

theorem lexLe_total : ∀ as bs : List Char, lexLe as bs = true ∨ lexLe bs as = true
  | [], _ => Or.inl rfl
  | _ :: _, [] => Or.inr rfl
  | a :: as, b :: bs => by
    rcases lt_trichotomy a b with h | h | h
    · exact Or.inl (by simp [lexLe, h])
    · subst h
      simpa [lexLe, lt_irrefl a] using lexLe_total as bs
    · exact Or.inr (by simp [lexLe, h])

theorem lexLe_trans : ∀ as bs cs : List Char,
    lexLe as bs = true → lexLe bs cs = true → lexLe as cs = true
  | [], _, _, _, _ => rfl
  | _ :: _, [], _, h1, _ => by simp [lexLe] at h1
  | _ :: _, _ :: _, [], _, h2 => by simp [lexLe] at h2
  | a :: as, b :: bs, c :: cs, h1, h2 => by
    rcases lt_trichotomy a b with hab | hab | hab
    · rcases lt_trichotomy b c with hbc | hbc | hbc
      · simp [lexLe, lt_trans hab hbc]
      · subst hbc; simp [lexLe, hab]
      · rw [lexLe, if_neg (asymm hbc), if_pos hbc] at h2
        exact absurd h2 (by simp)
    · subst hab
      rcases lt_trichotomy a c with hbc | hbc | hbc
      · simp [lexLe, hbc]
      · subst hbc
        rw [lexLe, if_neg (lt_irrefl a), if_neg (lt_irrefl a)] at h1 h2 ⊢
        exact lexLe_trans as bs cs h1 h2
      · rw [lexLe, if_neg (asymm hbc), if_pos hbc] at h2
        exact absurd h2 (by simp)
    · rw [lexLe, if_neg (asymm hab), if_pos hab] at h1
      exact absurd h1 (by simp)

theorem strLe_refl (a : String) : strLe a a := lexLe_refl a.data

theorem strLe_total (a b : String) : strLe a b ∨ strLe b a := lexLe_total a.data b.data

theorem strLe_trans {a b c : String} (h1 : strLe a b) (h2 : strLe b c) : strLe a c :=
  lexLe_trans a.data b.data c.data h1 h2

theorem getLastD_mem {α : Type} : ∀ (l : List α) (d : α), l ≠ [] → l.getLastD d ∈ l
  | [a], d, _ => by simp [List.getLastD]
  | a :: b :: t, d, _ => by
    rw [List.getLastD_cons]
    exact List.mem_cons_of_mem a (getLastD_mem (b :: t) a (by simp))

theorem strLe_getLastD_of_sorted {α : Type} (f : α → String) :
    ∀ (l : List α) (d x : α), List.Sorted (fun a b => strLe (f a) (f b)) l → x ∈ l →
      strLe (f x) (f (l.getLastD d))
  | a :: t, d, x, hs, hx => by
    rw [List.getLastD_cons]
    rcases List.sorted_cons.mp hs with ⟨hhead, htail⟩
    rcases List.mem_cons.mp hx with hxa | hxt
    · subst hxa
      cases t with
      | nil => exact strLe_refl (f x)
      | cons b t' => exact hhead _ (getLastD_mem (b :: t') x (by simp))
    · cases t with
      | nil => cases hxt
      | cons b t' => exact strLe_getLastD_of_sorted f (b :: t') a x htail hxt

theorem insertionSort_eq_self_of_rel {α : Type} (r : α → α → Prop) [DecidableRel r] :
    ∀ l : List α, (∀ x ∈ l, ∀ y ∈ l, r x y) → List.insertionSort r l = l
  | [], _ => rfl
  | a :: t, h => by
    have ht : List.insertionSort r t = t :=
      insertionSort_eq_self_of_rel r t
        (fun x hx y hy => h x (List.mem_cons_of_mem a hx) y (List.mem_cons_of_mem a hy))
    rw [List.insertionSort, ht]
    cases t with
    | nil => rfl
    | cons b t' =>
      rw [List.orderedInsert,
        if_pos (h a (List.mem_cons_self a _) b (List.mem_cons_of_mem a (List.mem_cons_self b _)))]

theorem lookupD_nil (d : String) : lookupD [] d = DayStats.zero := rfl

theorem lookupD_eq_zero_of_not_mem (s : Series) (d : String) (h : d ∉ seriesKeys s) :
    lookupD s d = DayStats.zero := by
  have hf : s.find? (fun p => decide (p.fst = d)) = none := by
    apply List.find?_eq_none.mpr
    intro p hp
    simp only [decide_eq_true_eq]
    intro hpd
    exact h (hpd ▸ List.mem_map_of_mem Prod.fst hp)
  simp [lookupD, hf]

theorem lookupD_cons (x : String × DayStats) (l : Series) (d : String) :
    lookupD (x :: l) d = if x.fst = d then x.snd else lookupD l d := by
  by_cases h : x.fst = d <;> simp [lookupD, List.find?, h]

theorem lookupD_upsert (s : Series) (k : String) (f : DayStats → DayStats) (d : String) :
    lookupD (upsert s k f) d = if d = k then f (lookupD s k) else lookupD s d := by
  induction s with
  | nil =>
    rw [show upsert [] k f = [(k, f DayStats.zero)] from rfl, lookupD_cons]
    dsimp only
    by_cases hdk : d = k
    · rw [if_pos (hdk ▸ rfl), if_pos hdk, lookupD_nil]
    · rw [if_neg (fun h : k = d => hdk h.symm), if_neg hdk, lookupD_nil]
  | cons p rest ih =>
    have hR : ∀ x, lookupD (p :: rest) x = if p.fst = x then p.snd else lookupD rest x :=
      fun x => lookupD_cons p rest x
    by_cases hpk : p.fst = k
    · rw [upsert, if_pos hpk, lookupD_cons, hR d, hR k, if_pos hpk]
      dsimp only
      by_cases hdk : d = k
      · rw [if_pos hdk, if_pos (show p.fst = d by rw [hpk, hdk])]
      · have hpd : ¬ p.fst = d := fun hc => hdk (by rw [← hc, hpk])
        rw [if_neg hdk, if_neg hpd, if_neg hpd]
    · rw [upsert, if_neg hpk, lookupD_cons, hR d, hR k, if_neg hpk, ih]
      by_cases hpd : p.fst = d
      · have hdk : ¬ d = k := fun hc => hpk (by rw [hpd, hc])
        rw [if_pos hpd, if_neg hdk, if_pos hpd]
      · rw [if_neg hpd]
        by_cases hdk : d = k
        · rw [if_pos hdk, if_pos hdk]
        · rw [if_neg hdk, if_neg hdk, if_neg hpd]

theorem seriesKeys_upsert (s : Series) (k : String) (f : DayStats → DayStats) :
    seriesKeys (upsert s k f) =
      if k ∈ seriesKeys s then seriesKeys s else seriesKeys s ++ [k] := by
  induction s with
  | nil => simp [upsert, seriesKeys]
  | cons p rest ih =>
    by_cases hpk : p.fst = k
    · rw [upsert, if_pos hpk]
      simp [seriesKeys, hpk]
    · rw [upsert, if_neg hpk]
      have hkp : k ≠ p.fst := fun hc => hpk hc.symm
      have hcons : seriesKeys (p :: upsert rest k f) = p.fst :: seriesKeys (upsert rest k f) := rfl
      have hcons2 : seriesKeys (p :: rest) = p.fst :: seriesKeys rest := rfl
      rw [hcons, ih, hcons2]
      by_cases hk : k ∈ seriesKeys rest
      · rw [if_pos hk, if_pos (List.mem_cons_of_mem p.fst hk)]
      · rw [if_neg hk, if_neg (by simp [hkp, hk])]
        rfl

theorem mem_seriesKeys_upsert (s : Series) (k : String) (f : DayStats → DayStats) (a : String) :
    a ∈ seriesKeys (upsert s k f) ↔ a = k ∨ a ∈ seriesKeys s := by
  rw [seriesKeys_upsert]
  by_cases hk : k ∈ seriesKeys s
  · simp only [if_pos hk]
    constructor
    · exact Or.inr
    · rintro (rfl | h)
      · exact hk
      · exact h
  · simp [if_neg hk, or_comm]

theorem nodup_seriesKeys_upsert (s : Series) (k : String) (f : DayStats → DayStats)
    (h : (seriesKeys s).Nodup) : (seriesKeys (upsert s k f)).Nodup := by
  rw [seriesKeys_upsert]
  by_cases hk : k ∈ seriesKeys s
  · simpa [hk]
  · simp [hk, List.nodup_append, h]

/-- The effect of one whole per-day loop on one key of the series, when
the loop body is absorbing (a second assignment to the same slots
overwrites the first): the last entry of the list whose date is d
wins, and a key with no matching entry is untouched. -/
theorem lookupD_foldl_addEntry (F : DayEntry → DayStats → DayStats)
    (habs : ∀ p q st, F p (F q st) = F p st) :
    ∀ (l : List DayEntry) (s : Series) (d : String),
      lookupD (l.foldl (addEntry F) s) d =
        match l.reverse.find? (fun p => decide (entryDate p = d)) with
        | some p => F p (lookupD s d)
        | none => lookupD s d
  | [], s, d => by simp
  | p :: rest, s, d => by
    rw [List.foldl_cons, lookupD_foldl_addEntry F habs rest (addEntry F s p) d]
    have hup : lookupD (addEntry F s p) d =
        if d = entryDate p then F p (lookupD s d) else lookupD s d := by
      rw [addEntry, lookupD_upsert]
      by_cases hdp : d = entryDate p
      · rw [if_pos hdp, if_pos hdp, hdp]
      · rw [if_neg hdp, if_neg hdp]
    rw [List.reverse_cons, List.find?_append]
    cases hfind : rest.reverse.find? (fun q => decide (entryDate q = d)) with
    | some r =>
      rw [hup]
      simp only [Option.or_some]
      by_cases hdp : d = entryDate p
      · rw [if_pos hdp, habs]
      · rw [if_neg hdp]
    | none =>
      simp only [Option.none_or]
      rw [hup]
      by_cases hdp : d = entryDate p
      · rw [if_pos hdp]
        have : List.find? (fun q => decide (entryDate q = d)) [p] = some p := by
          simp [List.find?, hdp.symm]
        rw [this]
      · have hdec : decide (entryDate p = d) = false :=
          decide_eq_false (fun hc => hdp hc.symm)
        have : List.find? (fun q => decide (entryDate q = d)) [p] = none := by
          simp [List.find?, hdec]
        rw [this, if_neg hdp]

/-- viewUpdate overwrites both of its slots, so it is absorbing. -/
theorem viewUpdate_abs (p q : DayEntry) (st : DayStats) :
    viewUpdate p (viewUpdate q st) = viewUpdate p st := rfl

/-- cloneUpdate overwrites both of its slots, so it is absorbing. -/
theorem cloneUpdate_abs (p q : DayEntry) (st : DayStats) :
    cloneUpdate p (cloneUpdate q st) = cloneUpdate p st := rfl

/-- The clones loop never touches the views and v_uniques slots. -/
theorem views_foldl_addClone (l : List DayEntry) (s : Series) (d : String) :
    (lookupD (l.foldl (addEntry cloneUpdate) s) d).views = (lookupD s d).views ∧
      (lookupD (l.foldl (addEntry cloneUpdate) s) d).v_uniques = (lookupD s d).v_uniques := by
  rw [lookupD_foldl_addEntry cloneUpdate cloneUpdate_abs]
  cases l.reverse.find? (fun p => decide (entryDate p = d)) with
  | some r => exact ⟨rfl, rfl⟩
  | none => exact ⟨rfl, rfl⟩

/-- The views loop never touches the clones and c_uniques slots. -/
theorem clones_foldl_addView (l : List DayEntry) (s : Series) (d : String) :
    (lookupD (l.foldl (addEntry viewUpdate) s) d).clones = (lookupD s d).clones ∧
      (lookupD (l.foldl (addEntry viewUpdate) s) d).c_uniques = (lookupD s d).c_uniques := by
  rw [lookupD_foldl_addEntry viewUpdate viewUpdate_abs]
  cases l.reverse.find? (fun p => decide (entryDate p = d)) with
  | some r => exact ⟨rfl, rfl⟩
  | none => exact ⟨rfl, rfl⟩

theorem mem_seriesKeys_foldl_addEntry (F : DayEntry → DayStats → DayStats) :
    ∀ (l : List DayEntry) (s : Series) (a : String),
      a ∈ seriesKeys (l.foldl (addEntry F) s) ↔ a ∈ seriesKeys s ∨ a ∈ l.map entryDate
  | [], s, a => by simp
  | p :: rest, s, a => by
    rw [List.foldl_cons, mem_seriesKeys_foldl_addEntry F rest (addEntry F s p) a,
      addEntry, mem_seriesKeys_upsert]
    simp only [List.map_cons, List.mem_cons]
    tauto

theorem nodup_seriesKeys_foldl_addEntry (F : DayEntry → DayStats → DayStats) :
    ∀ (l : List DayEntry) (s : Series), (seriesKeys s).Nodup →
      (seriesKeys (l.foldl (addEntry F) s)).Nodup
  | [], _, h => h
  | p :: rest, s, h => by
    rw [List.foldl_cons]
    exact nodup_seriesKeys_foldl_addEntry F rest (addEntry F s p)
      (nodup_seriesKeys_upsert s (entryDate p) (F p) h)

/-- Membership in the keys of the merged daily series is membership in
the union of the two date lists. -/
theorem mem_seriesKeys_buildSeries (vl cl : List DayEntry) (a : String) :
    a ∈ seriesKeys (buildSeries vl cl) ↔ a ∈ vl.map entryDate ∨ a ∈ cl.map entryDate := by
  rw [buildSeries, mem_seriesKeys_foldl_addEntry, mem_seriesKeys_foldl_addEntry]
  simp [seriesKeys]

theorem nodup_seriesKeys_buildSeries (vl cl : List DayEntry) :
    (seriesKeys (buildSeries vl cl)).Nodup := by
  rw [buildSeries]
  exact nodup_seriesKeys_foldl_addEntry cloneUpdate cl _
    (nodup_seriesKeys_foldl_addEntry viewUpdate vl [] (by simp [seriesKeys]))

/-- The views slots of the merged series at a date: the count and
uniques of the LAST views entry whose timestamp truncates to that
date, or zero when there is none. -/
theorem views_buildSeries (vl cl : List DayEntry) (d : String) :
    (lookupD (buildSeries vl cl) d).views =
        (match vl.reverse.find? (fun p => decide (entryDate p = d)) with
          | some p => p.count.getD 0
          | none => 0) ∧
      (lookupD (buildSeries vl cl) d).v_uniques =
        (match vl.reverse.find? (fun p => decide (entryDate p = d)) with
          | some p => p.uniques.getD 0
          | none => 0) := by
  rw [buildSeries]
  rcases views_foldl_addClone cl (vl.foldl (addEntry viewUpdate) []) d with ⟨h1, h2⟩
  rw [h1, h2, lookupD_foldl_addEntry viewUpdate viewUpdate_abs]
  cases vl.reverse.find? (fun p => decide (entryDate p = d)) with
  | some r => exact ⟨rfl, rfl⟩
  | none => exact ⟨rfl, rfl⟩

/-- The clones slots of the merged series at a date: the count and
uniques of the LAST clones entry whose timestamp truncates to that
date, or zero when there is none. -/
theorem clones_buildSeries (vl cl : List DayEntry) (d : String) :
    (lookupD (buildSeries vl cl) d).clones =
        (match cl.reverse.find? (fun p => decide (entryDate p = d)) with
          | some p => p.count.getD 0
          | none => 0) ∧
      (lookupD (buildSeries vl cl) d).c_uniques =
        (match cl.reverse.find? (fun p => decide (entryDate p = d)) with
          | some p => p.uniques.getD 0
          | none => 0) := by
  rw [buildSeries, lookupD_foldl_addEntry cloneUpdate cloneUpdate_abs]
  rcases clones_foldl_addView vl [] d with ⟨h1, h2⟩
  cases cl.reverse.find? (fun p => decide (entryDate p = d)) with
  | some r => exact ⟨rfl, rfl⟩
  | none => rw [h1, h2, lookupD_nil]; exact ⟨rfl, rfl⟩

instance : IsTotal String strLe := ⟨strLe_total⟩

instance : IsTrans String strLe := ⟨fun _ _ _ => strLe_trans⟩

/-- A date absent from a per-day list is found by no entry of its
reverse. -/
theorem find?_date_eq_none {l : List DayEntry} {d : String} (h : d ∉ l.map entryDate) :
    l.reverse.find? (fun p => decide (entryDate p = d)) = none := by
  apply List.find?_eq_none.mpr
  intro p hp
  simp only [decide_eq_true_eq]
  intro hpd
  exact h (hpd ▸ List.mem_map_of_mem entryDate (List.mem_reverse.mp hp))

/-! ### Unfolding lemmas for the fields of compute -/

theorem compute_series (snap : Snapshot) :
    (compute snap).series =
      buildSeries ((snap.views.getD SeriesSection.empty).daily.getD [])
        ((snap.clones.getD SeriesSection.empty).daily.getD []) := rfl

theorem compute_days (snap : Snapshot) :
    (compute snap).days =
      List.insertionSort (fun a b : String => strLe a b) (seriesKeys (compute snap).series) := rfl

theorem compute_v_total (snap : Snapshot) :
    (compute snap).v_total = (snap.views.getD SeriesSection.empty).count.getD 0 := rfl

theorem compute_v_unique (snap : Snapshot) :
    (compute snap).v_unique = (snap.views.getD SeriesSection.empty).uniques.getD 0 := rfl

theorem compute_c_total (snap : Snapshot) :
    (compute snap).c_total = (snap.clones.getD SeriesSection.empty).count.getD 0 := rfl

theorem compute_c_unique (snap : Snapshot) :
    (compute snap).c_unique = (snap.clones.getD SeriesSection.empty).uniques.getD 0 := rfl

theorem compute_referrers (snap : Snapshot) :
    (compute snap).referrers = snap.referrers.getD [] := rfl

theorem compute_paths (snap : Snapshot) :
    (compute snap).paths = snap.paths.getD [] := rfl

theorem compute_views_per_visitor (snap : Snapshot) :
    (compute snap).views_per_visitor =
      if (compute snap).v_unique ≠ 0 then
        ((compute snap).v_total : ℚ) / ((compute snap).v_unique : ℚ)
      else 0 := rfl

theorem compute_clone_to_view (snap : Snapshot) :
    (compute snap).clone_to_view =
      if (compute snap).v_total ≠ 0 then
        ((compute snap).c_total : ℚ) / ((compute snap).v_total : ℚ)
      else 0 := rfl

theorem compute_unique_cloner_to_visitor (snap : Snapshot) :
    (compute snap).unique_cloner_to_visitor =
      if (compute snap).v_unique ≠ 0 then
        ((compute snap).c_unique : ℚ) / ((compute snap).v_unique : ℚ)
      else 0 := rfl

theorem compute_daily_avg_views (snap : Snapshot) :
    (compute snap).daily_avg_views =
      if (compute snap).days ≠ [] then
        ((compute snap).days.map (fun k => ((lookupD (compute snap).series k).views : ℚ))).sum /
          ((compute snap).days.length : ℚ)
      else 0 := rfl

theorem compute_daily_avg_clones (snap : Snapshot) :
    (compute snap).daily_avg_clones =
      if (compute snap).days ≠ [] then
        ((compute snap).days.map (fun k => ((lookupD (compute snap).series k).clones : ℚ))).sum /
          ((compute snap).days.length : ℚ)
      else 0 := rfl

theorem compute_spikes (snap : Snapshot) :
    (compute snap).spikes =
      (compute snap).days.filterMap (fun k =>
        if spikeFlagsOf (lookupD (compute snap).series k) ≠ [] then
          some ⟨k, String.intercalate ", " (spikeFlagsOf (lookupD (compute snap).series k)),
            (lookupD (compute snap).series k).views,
            (lookupD (compute snap).series k).v_uniques,
            (lookupD (compute snap).series k).clones,
            (lookupD (compute snap).series k).c_uniques⟩
        else none) := rfl

theorem mem_compute_days_iff (snap : Snapshot) (d : String) :
    d ∈ (compute snap).days ↔ d ∈ seriesKeys (compute snap).series := by
  rw [compute_days]
  exact (List.perm_insertionSort _ _).mem_iff

/-- A day enters the spikes list exactly when it is a tracked day and
at least one tag fires for it. -/
theorem mem_spikes_iff (snap : Snapshot) (d : String) :
    (∃ sp ∈ (compute snap).spikes, sp.date = d) ↔
      d ∈ (compute snap).days ∧ spikeFlagsOf (lookupD (compute snap).series d) ≠ [] := by
  rw [compute_spikes]
  constructor
  · rintro ⟨sp, hsp, hdate⟩
    rcases List.mem_filterMap.mp hsp with ⟨k, hk, hfk⟩
    by_cases hfl : spikeFlagsOf (lookupD (compute snap).series k) ≠ []
    · rw [if_pos hfl] at hfk
      obtain rfl := Option.some.inj hfk
      have hkd : k = d := hdate
      subst hkd
      exact ⟨hk, hfl⟩
    · rw [if_neg hfl] at hfk
      cases hfk
  · rintro ⟨hd, hfl⟩
    refine ⟨⟨d, String.intercalate ", " (spikeFlagsOf (lookupD (compute snap).series d)),
      (lookupD (compute snap).series d).views, (lookupD (compute snap).series d).v_uniques,
      (lookupD (compute snap).series d).clones, (lookupD (compute snap).series d).c_uniques⟩,
      List.mem_filterMap.mpr ⟨d, hd, by rw [if_pos hfl]⟩, rfl⟩

/-- The tag list for a day is nonempty exactly when one of the three
guarded ratio predicates holds. -/
theorem spikeFlagsOf_ne_nil_iff (st : DayStats) :
    spikeFlagsOf st ≠ [] ↔
      (st.v_uniques ≠ 0 ∧ (5 : ℚ) < (st.views : ℚ) / (st.v_uniques : ℚ)) ∨
      (st.c_uniques ≠ 0 ∧ (3 : ℚ) < (st.clones : ℚ) / (st.c_uniques : ℚ)) ∨
      (st.views ≠ 0 ∧ (1 / 5 : ℚ) < (st.clones : ℚ) / (st.views : ℚ)) := by
  by_cases h1 : st.v_uniques ≠ 0 ∧ (5 : ℚ) < (st.views : ℚ) / (st.v_uniques : ℚ) <;>
    by_cases h2 : st.c_uniques ≠ 0 ∧ (3 : ℚ) < (st.clones : ℚ) / (st.c_uniques : ℚ) <;>
      by_cases h3 : st.views ≠ 0 ∧ (1 / 5 : ℚ) < (st.clones : ℚ) / (st.views : ℚ) <;>
        simp [spikeFlagsOf, h1, h2, h3]

/-- A day with zero views never carries the clones-to-views tag. -/
theorem clones_views_tag_not_mem (st : DayStats) (h : st.views = 0) :
    "clones/views>20%" ∉ spikeFlagsOf st := by
  have h3 : ¬(st.views ≠ 0 ∧ (1 / 5 : ℚ) < (st.clones : ℚ) / (st.views : ℚ)) :=
    fun hc => hc.1 h
  rw [spikeFlagsOf, if_neg h3]
  split_ifs <;> decide

/-! ## The claims -/

/-- C1: the three snapshot ratios are computed from the total counts
with zero-guards: views_per_visitor is views.count / views.uniques and
0 when views.uniques is 0; clone_to_view is clones.count / views.count
and 0 when views.count is 0; unique_cloner_to_visitor is
clones.uniques / views.uniques and 0 when views.uniques is 0.  Every
division in the model is guarded exactly as in the source, so no
division-by-zero fault can arise.  The division facts are stated
multiplicatively, which pins down the quotient uniquely. -/
theorem C1_ratio_guards (snap : Snapshot) :
    ((compute snap).v_unique = 0 → (compute snap).views_per_visitor = 0) ∧
    ((compute snap).v_unique ≠ 0 →
      (compute snap).views_per_visitor * ((compute snap).v_unique : ℚ) =
        ((compute snap).v_total : ℚ)) ∧
    ((compute snap).v_total = 0 → (compute snap).clone_to_view = 0) ∧
    ((compute snap).v_total ≠ 0 →
      (compute snap).clone_to_view * ((compute snap).v_total : ℚ) =
        ((compute snap).c_total : ℚ)) ∧
    ((compute snap).v_unique = 0 → (compute snap).unique_cloner_to_visitor = 0) ∧
    ((compute snap).v_unique ≠ 0 →
      (compute snap).unique_cloner_to_visitor * ((compute snap).v_unique : ℚ) =
        ((compute snap).c_unique : ℚ)) := by
  refine ⟨?_, ?_, ?_, ?_, ?_, ?_⟩ <;> intro h
  · rw [compute_views_per_visitor, if_neg (by simp [h])]
  · rw [compute_views_per_visitor, if_pos h,
      div_mul_cancel₀ _ (Nat.cast_ne_zero.mpr h : ((compute snap).v_unique : ℚ) ≠ 0)]
  · rw [compute_clone_to_view, if_neg (by simp [h])]
  · rw [compute_clone_to_view, if_pos h,
      div_mul_cancel₀ _ (Nat.cast_ne_zero.mpr h : ((compute snap).v_total : ℚ) ≠ 0)]
  · rw [compute_unique_cloner_to_visitor, if_neg (by simp [h])]
  · rw [compute_unique_cloner_to_visitor, if_pos h,
      div_mul_cancel₀ _ (Nat.cast_ne_zero.mpr h : ((compute snap).v_unique : ℚ) ≠ 0)]

/-- C1 witness: the guards are exercised on the spec's worked example
(views 100/20, clones 25/4). -/
theorem C1_ratio_guards_witness :
    (compute snapC1).views_per_visitor * ((compute snapC1).v_unique : ℚ) =
        ((compute snapC1).v_total : ℚ) ∧
      (compute snapC1).clone_to_view * ((compute snapC1).v_total : ℚ) =
        ((compute snapC1).c_total : ℚ) ∧
      (compute snapC1).unique_cloner_to_visitor * ((compute snapC1).v_unique : ℚ) =
        ((compute snapC1).c_unique : ℚ) :=
  ⟨(C1_ratio_guards snapC1).2.1 (by decide),
   (C1_ratio_guards snapC1).2.2.2.1 (by decide),
   (C1_ratio_guards snapC1).2.2.2.2.2 (by decide)⟩

/-- C2: a day appears in the spike list iff one of the three guarded
predicates fires on that day's stats; each guard requires a positive
denominator, and in particular a day with zero views never carries the
clones-to-views tag. -/
theorem C2_spike_predicates (snap : Snapshot) (d : String) :
    ((∃ sp ∈ (compute snap).spikes, sp.date = d) ↔
      ((lookupD (compute snap).series d).v_uniques ≠ 0 ∧
        (5 : ℚ) < ((lookupD (compute snap).series d).views : ℚ) /
          ((lookupD (compute snap).series d).v_uniques : ℚ)) ∨
      ((lookupD (compute snap).series d).c_uniques ≠ 0 ∧
        (3 : ℚ) < ((lookupD (compute snap).series d).clones : ℚ) /
          ((lookupD (compute snap).series d).c_uniques : ℚ)) ∨
      ((lookupD (compute snap).series d).views ≠ 0 ∧
        (1 / 5 : ℚ) < ((lookupD (compute snap).series d).clones : ℚ) /
          ((lookupD (compute snap).series d).views : ℚ))) ∧
    (∀ st : DayStats, st.views = 0 → "clones/views>20%" ∉ spikeFlagsOf st) := by
  refine ⟨?_, clones_views_tag_not_mem⟩
  rw [mem_spikes_iff, spikeFlagsOf_ne_nil_iff]
  constructor
  · exact fun h => h.2
  · intro h
    refine ⟨?_, h⟩
    rw [mem_compute_days_iff]
    by_contra hd
    rw [lookupD_eq_zero_of_not_mem _ _ hd] at h
    rcases h with ⟨hc, _⟩ | ⟨hc, _⟩ | ⟨hc, _⟩ <;> exact hc rfl

/-- C2 witness: the iff produces the spike entry on a concrete day of
50 views by 5 visitors, and the zero-views guard is exercised on a
concrete day with clones but no views. -/
theorem C2_spike_predicates_witness :
    (∃ sp ∈ (compute snapC2).spikes, sp.date = "2025-10-01") ∧
      "clones/views>20%" ∉ spikeFlagsOf ⟨0, 3, 7, 2⟩ := by
  refine ⟨((C2_spike_predicates snapC2 "2025-10-01").1).mpr ?_,
    (C2_spike_predicates snapC2 "x").2 ⟨0, 3, 7, 2⟩ rfl⟩
  left
  have hv : (lookupD (compute snapC2).series "2025-10-01").views = 50 := by decide
  have hu : (lookupD (compute snapC2).series "2025-10-01").v_uniques = 5 := by decide
  rw [hv, hu]
  norm_num

/-- C3: the dates of the daily series are exactly the union of the
calendar dates (timestamps truncated at the T boundary) of the views
and clones per-day lists, each date appearing exactly once, in
ascending lexicographic order; a date covered by only one series has
the other series' two slots equal to 0. -/
theorem C3_daily_series (snap : Snapshot) :
    (∀ d, d ∈ (compute snap).days ↔
      (d ∈ ((snap.views.getD SeriesSection.empty).daily.getD []).map entryDate ∨
       d ∈ ((snap.clones.getD SeriesSection.empty).daily.getD []).map entryDate)) ∧
    (compute snap).days.Nodup ∧
    (compute snap).days.Sorted (fun a b => strLe a b) ∧
    (∀ d, d ∉ ((snap.clones.getD SeriesSection.empty).daily.getD []).map entryDate →
      (lookupD (compute snap).series d).clones = 0 ∧
        (lookupD (compute snap).series d).c_uniques = 0) ∧
    (∀ d, d ∉ ((snap.views.getD SeriesSection.empty).daily.getD []).map entryDate →
      (lookupD (compute snap).series d).views = 0 ∧
        (lookupD (compute snap).series d).v_uniques = 0) := by
  refine ⟨?_, ?_, ?_, ?_, ?_⟩
  · intro d
    rw [mem_compute_days_iff, compute_series, mem_seriesKeys_buildSeries]
  · rw [compute_days]
    exact (List.perm_insertionSort _ _).symm.nodup
      (compute_series snap ▸ nodup_seriesKeys_buildSeries _ _)
  · rw [compute_days]
    exact List.sorted_insertionSort _ _
  · intro d hd
    rw [compute_series]
    rcases clones_buildSeries ((snap.views.getD SeriesSection.empty).daily.getD [])
      ((snap.clones.getD SeriesSection.empty).daily.getD []) d with ⟨h1, h2⟩
    rw [h1, h2, find?_date_eq_none hd]
    exact ⟨rfl, rfl⟩
  · intro d hd
    rw [compute_series]
    rcases views_buildSeries ((snap.views.getD SeriesSection.empty).daily.getD [])
      ((snap.clones.getD SeriesSection.empty).daily.getD []) d with ⟨h1, h2⟩
    rw [h1, h2, find?_date_eq_none hd]
    exact ⟨rfl, rfl⟩

/-- C3 witness: on a snapshot whose views cover only 2025-10-01 and
whose clones cover only 2025-10-02, the lone-series dates carry zeros
for the other series. -/
theorem C3_daily_series_witness :
    ((lookupD (compute snapC3).series "2025-10-01").clones = 0 ∧
      (lookupD (compute snapC3).series "2025-10-01").c_uniques = 0) ∧
    ((lookupD (compute snapC3).series "2025-10-02").views = 0 ∧
      (lookupD (compute snapC3).series "2025-10-02").v_uniques = 0) :=
  ⟨(C3_daily_series snapC3).2.2.2.1 "2025-10-01" (by decide),
   (C3_daily_series snapC3).2.2.2.2 "2025-10-02" (by decide)⟩

/-- C4 counterexample: on a snapshot with one views entry (count 10)
but two distinct tracked days, summarize_traffic reports a daily
average of 10 (total over its own one-entry list) while the mean over
the 2 distinct tracked days is 5, so the claim that both renderers
compute the mean over the distinct tracked days is false. -/
theorem C4_counterexample :
    (summarize_views snapC4).map SeriesSummary.daily_avg = some (some 10) ∧
      (compute snapC4).days.length = 2 ∧
      (compute snapC4).daily_avg_views = 5 ∧
      (10 : ℚ) ≠ 5 := by
  refine ⟨?_, by decide, ?_, by norm_num⟩
  · norm_num [snapC4, secC4v, summarize_views, summarizeSeries, sectionTruthy]
  · have hdays : (compute snapC4).days = ["2025-10-01", "2025-10-02"] := by decide
    have h1 : (lookupD (compute snapC4).series "2025-10-01").views = 10 := by decide
    have h2 : (lookupD (compute snapC4).series "2025-10-02").views = 0 := by decide
    rw [compute_daily_avg_views, hdays, if_pos (by simp)]
    rw [List.map_cons, List.map_cons, List.map_nil, h1, h2]
    norm_num

/-- C4 as amended: in traffic_report each daily average is the sum of
that metric's per-day series values divided by the number of distinct
tracked days, and 0 when there are zero tracked days; summarize_traffic
instead divides each series' total count by the length of that series'
own per-day list and omits the average (without error) when that list
is empty. -/
theorem C4_daily_averages (snap : Snapshot) (sec : SeriesSection) :
    ((compute snap).days = [] →
      (compute snap).daily_avg_views = 0 ∧ (compute snap).daily_avg_clones = 0) ∧
    ((compute snap).days ≠ [] →
      (compute snap).daily_avg_views * ((compute snap).days.length : ℚ) =
          ((compute snap).days.map
            (fun k => ((lookupD (compute snap).series k).views : ℚ))).sum ∧
        (compute snap).daily_avg_clones * ((compute snap).days.length : ℚ) =
          ((compute snap).days.map
            (fun k => ((lookupD (compute snap).series k).clones : ℚ))).sum) ∧
    (snap.views = some sec → sectionTruthy sec = true →
      summarize_views snap = some (summarizeSeries sec) ∧
        (sec.daily.getD [] = [] → (summarizeSeries sec).daily_avg = none) ∧
        (sec.daily.getD [] ≠ [] →
          (summarizeSeries sec).daily_avg =
            some ((sec.count.getD 0 : ℚ) / ((sec.daily.getD []).length : ℚ)))) := by
  refine ⟨?_, ?_, ?_⟩
  · intro h
    rw [compute_daily_avg_views, compute_daily_avg_clones]
    rw [if_neg (by simp [h]), if_neg (by simp [h])]
    exact ⟨rfl, rfl⟩
  · intro h
    have hlen : (((compute snap).days.length : ℚ)) ≠ 0 :=
      Nat.cast_ne_zero.mpr (Nat.pos_iff_ne_zero.mp (List.length_pos.mpr h))
    rw [compute_daily_avg_views, compute_daily_avg_clones, if_pos h, if_pos h,
      div_mul_cancel₀ _ hlen, div_mul_cancel₀ _ hlen]
    exact ⟨rfl, rfl⟩
  · intro hv ht
    refine ⟨by rw [summarize_views, hv]; dsimp only; rw [if_pos ht], ?_, ?_⟩
    · intro h0
      have : (summarizeSeries sec).daily_avg =
          if (sec.daily.getD []).length > 0 then
            some ((sec.count.getD 0 : ℚ) / ((sec.daily.getD []).length : ℚ))
          else none := rfl
      rw [this, if_neg (by simp [h0])]
    · intro hne
      have : (summarizeSeries sec).daily_avg =
          if (sec.daily.getD []).length > 0 then
            some ((sec.count.getD 0 : ℚ) / ((sec.daily.getD []).length : ℚ))
          else none := rfl
      rw [this, if_pos (List.length_pos.mpr hne)]

/-- C4 witness: both branches of the amended statement are exercised on
the counterexample snapshot. -/
theorem C4_daily_averages_witness :
    ((compute snapC4).daily_avg_views * ((compute snapC4).days.length : ℚ) =
        ((compute snapC4).days.map
          (fun k => ((lookupD (compute snapC4).series k).views : ℚ))).sum) ∧
      summarize_views snapC4 = some (summarizeSeries secC4v) ∧
      (summarizeSeries secC4v).daily_avg =
        some ((secC4v.count.getD 0 : ℚ) / ((secC4v.daily.getD []).length : ℚ)) :=
  ⟨((C4_daily_averages snapC4 secC4v).2.1 (by decide)).1,
   ((C4_daily_averages snapC4 secC4v).2.2 rfl (by decide)).1,
   ((C4_daily_averages snapC4 secC4v).2.2 rfl (by decide)).2.2 (by decide)⟩

/-- C5: with the embedded-timestamp strategy (traffic_report), the
selected file carries a maximal collected_at key, where an unreadable,
malformed or field-free file keys as the empty string, and when every
candidate lacks the field the selection falls back to the lexically
last filename; with the lexical strategy (summarize_traffic) the
selected file is the lexically last, and in particular the directory
holding exactly 2025-10-24.json and 2025-10-25.json selects the
latter. -/
theorem C5_loader_selection :
    (∀ files : List SnapFile, files ≠ [] →
      ∃ f, latest_snapshot files = Except.ok f ∧ f ∈ files ∧
        (∀ g ∈ files, strLe (keyOf g) (keyOf f)) ∧
        ((∀ g ∈ files, keyOf g = "") → ∀ g ∈ files, strLe g.name f.name)) ∧
    (∀ files : List SnapFile, files ≠ [] →
      ∃ f, find_latest_snapshot (some files) = Except.ok f ∧ f ∈ files ∧
        ∀ g ∈ files, strLe g.name f.name) ∧
    (∀ s1 s2 : Option Snapshot,
      find_latest_snapshot (some [⟨"2025-10-24.json", s1⟩, ⟨"2025-10-25.json", s2⟩]) =
        Except.ok ⟨"2025-10-25.json", s2⟩) := by
  haveI instN : IsTotal SnapFile (fun a b => strLe a.name b.name) :=
    ⟨fun a b => strLe_total a.name b.name⟩
  haveI instNT : IsTrans SnapFile (fun a b => strLe a.name b.name) :=
    ⟨fun _ _ _ => strLe_trans⟩
  haveI instK : IsTotal SnapFile (fun a b => strLe (keyOf a) (keyOf b)) :=
    ⟨fun a b => strLe_total (keyOf a) (keyOf b)⟩
  haveI instKT : IsTrans SnapFile (fun a b => strLe (keyOf a) (keyOf b)) :=
    ⟨fun _ _ _ => strLe_trans⟩
  refine ⟨?_, ?_, ?_⟩
  · intro files h
    set byName := List.insertionSort (fun a b : SnapFile => strLe a.name b.name) files with hbn
    set byKey := List.insertionSort (fun a b : SnapFile => strLe (keyOf a) (keyOf b)) byName
      with hbk
    have hpn : List.Perm byName files := List.perm_insertionSort _ _
    have hpk : List.Perm byKey byName := List.perm_insertionSort _ _
    have hmem : ∀ g, g ∈ byKey ↔ g ∈ files := fun g => hpk.mem_iff.trans hpn.mem_iff
    have hne : byKey ≠ [] := by
      intro hc
      exact h (List.eq_nil_of_length_eq_zero (by
        rw [← hpn.length_eq, ← hpk.length_eq, hc, List.length_nil]))
    refine ⟨byKey.getLastD ⟨"", none⟩, ?_, ?_, ?_, ?_⟩
    · rw [latest_snapshot, if_neg h]
    · exact (hmem _).mp (getLastD_mem byKey _ hne)
    · intro g hg
      exact strLe_getLastD_of_sorted keyOf byKey _ g
        (List.sorted_insertionSort _ _) ((hmem g).mpr hg)
    · intro hall g hg
      have hid : byKey = byName := by
        rw [hbk]
        apply insertionSort_eq_self_of_rel
        intro x hx y hy
        rw [hall x (hpn.mem_iff.mp hx), hall y (hpn.mem_iff.mp hy)]
        exact strLe_refl ""
      rw [hid]
      exact strLe_getLastD_of_sorted SnapFile.name byName _ g
        (List.sorted_insertionSort _ _) (hpn.mem_iff.mpr hg)
  · intro files h
    set byName := List.insertionSort (fun a b : SnapFile => strLe a.name b.name) files with hbn
    have hpn : List.Perm byName files := List.perm_insertionSort _ _
    have hne : byName ≠ [] := by
      intro hc
      exact h (List.eq_nil_of_length_eq_zero (by rw [← hpn.length_eq, hc, List.length_nil]))
    refine ⟨byName.getLastD ⟨"", none⟩, ?_, ?_, ?_⟩
    · rw [find_latest_snapshot, if_neg h]
    · exact hpn.mem_iff.mp (getLastD_mem byName _ hne)
    · intro g hg
      exact strLe_getLastD_of_sorted SnapFile.name byName _ g
        (List.sorted_insertionSort _ _) (hpn.mem_iff.mpr hg)
  · intro s1 s2
    rw [find_latest_snapshot, if_neg (by simp)]
    have hle : strLe ("2025-10-24.json" : String) "2025-10-25.json" := by decide
    simp only [List.insertionSort, List.orderedInsert, if_pos hle]
    rfl

/-- C5 witness: the selection properties are instantiated on the
spec's two-file directory. -/
theorem C5_loader_selection_witness :
    (∃ f, latest_snapshot filesC5 = Except.ok f ∧ f ∈ filesC5 ∧
      (∀ g ∈ filesC5, strLe (keyOf g) (keyOf f)) ∧
      ((∀ g ∈ filesC5, keyOf g = "") → ∀ g ∈ filesC5, strLe g.name f.name)) ∧
    (∃ f, find_latest_snapshot (some filesC5) = Except.ok f ∧ f ∈ filesC5 ∧
      ∀ g ∈ filesC5, strLe g.name f.name) :=
  ⟨C5_loader_selection.1 filesC5 (by decide),
   C5_loader_selection.2.1 filesC5 (by decide)⟩

/-- C6 counterexample: on an empty snapshot directory,
summarize_traffic prints its error with print(), which writes to
standard output, not standard error, so the claim that each tool
reports the failure on standard error is false. -/
theorem C6_counterexample :
    summarizeRun (some []) = Except.error noFilesExit ∧
      noFilesExit.stream = OutStream.stdout ∧
      OutStream.stdout ≠ OutStream.stderr :=
  ⟨rfl, rfl, by decide⟩

/-- C6 as amended: with an absent directory or no .json candidates,
each tool aborts with exit code 1 and produces no report;
traffic_report carries its message on standard error (SystemExit),
while summarize_traffic prints its message to standard output before
exiting. -/
theorem C6_missing_snapshots (files : List SnapFile) (dir : Option (List SnapFile)) :
    (files = [] →
      trafficReportRun files = Except.error noSnapshotsExit ∧
        noSnapshotsExit.code ≠ 0 ∧ noSnapshotsExit.stream = OutStream.stderr) ∧
    (dir = none →
      summarizeRun dir = Except.error dirNotFoundExit ∧
        dirNotFoundExit.code ≠ 0 ∧ dirNotFoundExit.stream = OutStream.stdout) ∧
    (dir = some [] →
      summarizeRun dir = Except.error noFilesExit ∧
        noFilesExit.code ≠ 0 ∧ noFilesExit.stream = OutStream.stdout) := by
  refine ⟨?_, ?_, ?_⟩ <;> rintro rfl <;> exact ⟨rfl, by decide, rfl⟩

/-- C6 witness: both failure modes of both tools, at concrete empty
inputs. -/
theorem C6_missing_snapshots_witness :
    (trafficReportRun [] = Except.error noSnapshotsExit ∧
      noSnapshotsExit.code ≠ 0 ∧ noSnapshotsExit.stream = OutStream.stderr) ∧
    (summarizeRun none = Except.error dirNotFoundExit ∧
      dirNotFoundExit.code ≠ 0 ∧ dirNotFoundExit.stream = OutStream.stdout) :=
  ⟨(C6_missing_snapshots [] (some [])).1 rfl,
   (C6_missing_snapshots [] none).2.1 rfl⟩

/-- C7 counterexample: a directory holding a malformed candidate
(2025-10-24.json) next to a well-formed lexically later one completes
successfully in both tools, so the claim that every run with a
malformed candidate fails is false: during selection traffic_report
swallows the parse failure and keys the file as an empty string, and
summarize_traffic never opens non-selected files. -/
theorem C7_counterexample :
    mal24.parsed = none ∧
      trafficReportRun [mal24, good25] = Except.ok (compute snapC7) ∧
      summarizeRun (some [mal24, good25]) =
        Except.ok (summarize_views snapC7, summarize_clones snapC7) := by
  refine ⟨rfl, ?_, ?_⟩ <;> decide

/-- C7 as amended: a run aborts with the (path-free) JSON decode error
exactly when the file actually selected is malformed, and then nothing
is produced; the parse result of every other candidate is irrelevant
to the outcome. -/
theorem C7_parse_failure (files : List SnapFile) (dir : Option (List SnapFile)) (f : SnapFile) :
    (latest_snapshot files = Except.ok f → f.parsed = none →
      trafficReportRun files = Except.error jsonDecodeExit) ∧
    (∀ d, latest_snapshot files = Except.ok f → f.parsed = some d →
      trafficReportRun files = Except.ok (compute d)) ∧
    (find_latest_snapshot dir = Except.ok f → f.parsed = none →
      summarizeRun dir = Except.error jsonDecodeExit) ∧
    (∀ d, find_latest_snapshot dir = Except.ok f → f.parsed = some d →
      summarizeRun dir = Except.ok (summarize_views d, summarize_clones d)) := by
  refine ⟨?_, ?_, ?_, ?_⟩
  · intro h1 h2
    rw [trafficReportRun, load_data, h1]
    dsimp only
    rw [h2]
  · intro d h1 h2
    rw [trafficReportRun, load_data, h1]
    dsimp only
    rw [h2]
  · intro h1 h2
    rw [summarizeRun, h1]
    dsimp only
    rw [h2]
  · intro d h1 h2
    rw [summarizeRun, h1]
    dsimp only
    rw [h2]

/-- C7 witness: the abort and success branches at concrete
directories. -/
theorem C7_parse_failure_witness :
    trafficReportRun [mal24] = Except.error jsonDecodeExit ∧
      trafficReportRun [good25] = Except.ok (compute snapC7) :=
  ⟨(C7_parse_failure [mal24] none mal24).1 (by decide) rfl,
   (C7_parse_failure [good25] none good25).2.1 snapC7 (by decide) rfl⟩

/-- C8: the four totals are passed through verbatim into the derived
statistics, defaulting to 0 for an absent field or section, and absent
optional sections (referrers, paths, or a whole views/clones section
in summarize_traffic) degrade to empty or zero values instead of
failing. -/
theorem C8_totals_passthrough (snap : Snapshot) :
    (∀ sec : SeriesSection, snap.views = some sec →
      (compute snap).v_total = sec.count.getD 0 ∧
        (compute snap).v_unique = sec.uniques.getD 0) ∧
    (snap.views = none → (compute snap).v_total = 0 ∧ (compute snap).v_unique = 0) ∧
    (∀ sec : SeriesSection, snap.clones = some sec →
      (compute snap).c_total = sec.count.getD 0 ∧
        (compute snap).c_unique = sec.uniques.getD 0) ∧
    (snap.clones = none → (compute snap).c_total = 0 ∧ (compute snap).c_unique = 0) ∧
    (∀ rs, snap.referrers = some rs → (compute snap).referrers = rs) ∧
    (snap.referrers = none → (compute snap).referrers = []) ∧
    (∀ ps, snap.paths = some ps → (compute snap).paths = ps) ∧
    (snap.paths = none → (compute snap).paths = []) ∧
    (snap.views = none → summarize_views snap = none) ∧
    (snap.clones = none → summarize_clones snap = none) := by
  refine ⟨?_, ?_, ?_, ?_, ?_, ?_, ?_, ?_, ?_, ?_⟩
  · intro sec h
    rw [compute_v_total, compute_v_unique, h]
    exact ⟨rfl, rfl⟩
  · intro h
    rw [compute_v_total, compute_v_unique, h]
    exact ⟨rfl, rfl⟩
  · intro sec h
    rw [compute_c_total, compute_c_unique, h]
    exact ⟨rfl, rfl⟩
  · intro h
    rw [compute_c_total, compute_c_unique, h]
    exact ⟨rfl, rfl⟩
  · intro rs h
    rw [compute_referrers, h]
    rfl
  · intro h
    rw [compute_referrers, h]
    rfl
  · intro ps h
    rw [compute_paths, h]
    rfl
  · intro h
    rw [compute_paths, h]
    rfl
  · intro h
    rw [summarize_views, h]
  · intro h
    rw [summarize_clones, h]

/-- C8 witness: pass-through on the worked example's sections and the
defaults on its absent referrers and paths. -/
theorem C8_totals_passthrough_witness :
    ((compute snapC1).v_total = secC1v.count.getD 0 ∧
      (compute snapC1).v_unique = secC1v.uniques.getD 0) ∧
    ((compute snapC1).c_total = secC1c.count.getD 0 ∧
      (compute snapC1).c_unique = secC1c.uniques.getD 0) ∧
    (compute snapC1).referrers = [] ∧
    (compute snapC1).paths = [] ∧
    summarize_views snapC7 = none :=
  ⟨(C8_totals_passthrough snapC1).1 secC1v rfl,
   (C8_totals_passthrough snapC1).2.2.1 secC1c rfl,
   (C8_totals_passthrough snapC1).2.2.2.2.2.1 rfl,
   (C8_totals_passthrough snapC1).2.2.2.2.2.2.2.1 rfl,
   (C8_totals_passthrough snapC7).2.2.2.2.2.2.2.2.1 rfl⟩

/-- C9 counterexample: traffic_report invoked with -h does not print a
usage text and exit 0, it just runs the report, so the claim that both
tools respond to -h and --help with usage and exit status 0 is
false. -/
theorem C9_counterexample :
    traffic_report_main ["-h"] = CliAction.run none ∧
      CliAction.run (none : Option String) ≠ CliAction.helpExit 0 :=
  ⟨rfl, by decide⟩

/-- C9 as amended: summarize_traffic treats a leading -h, --help or
help as a request for usage and exits 0, takes an optional first
positional argument as the metrics directory and ignores extras;
traffic_report never inspects its arguments and has no help handling:
it runs the report unconditionally. -/
theorem C9_cli (a : String) (rest args : List String)
    (h : ¬(a = "-h" ∨ a = "--help" ∨ a = "help")) :
    traffic_report_main args = CliAction.run none ∧
    summarize_main [] = CliAction.run none ∧
    summarize_main ("-h" :: rest) = CliAction.helpExit 0 ∧
    summarize_main ("--help" :: rest) = CliAction.helpExit 0 ∧
    summarize_main ("help" :: rest) = CliAction.helpExit 0 ∧
    summarize_main (a :: rest) = CliAction.run (some a) := by
  refine ⟨rfl, rfl, ?_, ?_, ?_, ?_⟩
  · rw [summarize_main,
      if_pos (by decide : ("-h" : String) = "-h" ∨ "-h" = "--help" ∨ "-h" = "help")]
  · rw [summarize_main,
      if_pos (by decide : ("--help" : String) = "-h" ∨ "--help" = "--help" ∨ "--help" = "help")]
  · rw [summarize_main,
      if_pos (by decide : ("help" : String) = "-h" ∨ "help" = "--help" ∨ "help" = "help")]
  · rw [summarize_main, if_neg h]

/-- C9 witness: the argument handling at concrete argument vectors. -/
theorem C9_cli_witness :
    traffic_report_main ["--help"] = CliAction.run none ∧
    summarize_main [] = CliAction.run none ∧
    summarize_main ["-h"] = CliAction.helpExit 0 ∧
    summarize_main ["--help"] = CliAction.helpExit 0 ∧
    summarize_main ["help"] = CliAction.helpExit 0 ∧
    summarize_main ["metrics"] = CliAction.run (some "metrics") :=
  C9_cli "metrics" [] ["--help"] (by decide)

/-- C10: in each per-day list, when several entries share a calendar
date the series slot for that date holds exactly the count and uniques
of the entry latest in list order (the last assignment wins); nothing
is summed. -/
theorem C10_duplicate_dates (snap : Snapshot) (d : String) :
    (∀ p, ((snap.views.getD SeriesSection.empty).daily.getD []).reverse.find?
        (fun q => decide (entryDate q = d)) = some p →
      (lookupD (compute snap).series d).views = p.count.getD 0 ∧
        (lookupD (compute snap).series d).v_uniques = p.uniques.getD 0) ∧
    (∀ p, ((snap.clones.getD SeriesSection.empty).daily.getD []).reverse.find?
        (fun q => decide (entryDate q = d)) = some p →
      (lookupD (compute snap).series d).clones = p.count.getD 0 ∧
        (lookupD (compute snap).series d).c_uniques = p.uniques.getD 0) := by
  constructor
  · intro p hp
    rw [compute_series]
    rcases views_buildSeries ((snap.views.getD SeriesSection.empty).daily.getD [])
      ((snap.clones.getD SeriesSection.empty).daily.getD []) d with ⟨h1, h2⟩
    rw [h1, h2, hp]
    exact ⟨rfl, rfl⟩
  · intro p hp
    rw [compute_series]
    rcases clones_buildSeries ((snap.views.getD SeriesSection.empty).daily.getD [])
      ((snap.clones.getD SeriesSection.empty).daily.getD []) d with ⟨h1, h2⟩
    rw [h1, h2, hp]
    exact ⟨rfl, rfl⟩

/-- C10 witness: with two views entries on 2025-10-01 (counts 4 then
6), the series records the later entry's values 6 and 2. -/
theorem C10_duplicate_dates_witness :
    (lookupD (compute snapC10).series "2025-10-01").views =
        (some 6 : Option Nat).getD 0 ∧
      (lookupD (compute snapC10).series "2025-10-01").v_uniques =
        (some 2 : Option Nat).getD 0 :=
  (C10_duplicate_dates snapC10 "2025-10-01").1
    ⟨some "2025-10-01T08:00:00Z", some 6, some 2⟩ (by decide)

end Vsa
